import Mathlib

/-!
Verification development for the rag-Education-system repository.

The provided sources are the frontend: the axios API client
(frontend/src/services/api.js), the router (App), the login pages, and two
versions of the ChatInterface / Dashboard pages.  The backend retrieval
pipeline (Chunker, Vector Index, Context Assembler, Session Manager) is not
among the sources; where a claim depends on it, the corresponding definition
is modelled from the specification and marked as such in its doc comment.
-/

namespace RagEdu

/-! ## A small model of JavaScript values

JavaScript distinguishes `undefined` from `null`; default parameter values
apply exactly when the passed argument is `undefined`.  Truthiness of strings
treats the empty string as falsy.  Objects are association lists of fields.
-/

/-- Primitive JavaScript values as they occur in the modelled code. -/
inductive JsValue where
  | undef
  | null
  | str (s : String)
  | num (n : Int)
deriving DecidableEq, Repr

/-- An argument position in a JavaScript call: either a primitive value or an
object literal (association list of fields). -/
inductive JsArg where
  | prim (v : JsValue)
  | obj (fields : List (String × JsValue))
deriving DecidableEq, Repr

/-- JavaScript truthiness of a string: the empty string is falsy. -/
def jsTruthyStr (s : String) : Bool := s ≠ ""

/-- Models `String.prototype.trim`: strips whitespace from both ends of the
string (structurally recursive so that concrete instances evaluate). -/
def jsTrim (s : String) : String :=
  String.mk (((s.data.dropWhile Char.isWhitespace).reverse.dropWhile Char.isWhitespace).reverse)

/-- JavaScript truthiness of a nullable string (`null` and `""` are falsy). -/
def jsTruthyOptStr (v : Option String) : Bool :=
  match v with
  | none => false
  | some s => jsTruthyStr s

/-! ## api.js: the axios client -/

/-- From api.js lines 67-68: `sendMessage(courseId, message, sessionId = null)`
posts the body `{ course_id: courseId, message, session_id: sessionId }`.
The default parameter applies when the third argument is `undefined`. -/
def chatSendMessage (courseId message sessionId : JsArg) : List (String × JsArg) :=
  [("course_id", courseId),
   ("message", message),
   ("session_id", if sessionId = JsArg.prim JsValue.undef then JsArg.prim JsValue.null else sessionId)]

/-- Field lookup in a request body, as axios serialises object fields. -/
def lookupField (name : String) (body : List (String × JsArg)) : Option JsArg :=
  (body.find? (fun e => e.1 = name)).map Prod.snd

/-- The field names of a request body, in order. -/
def requestFieldNames (body : List (String × JsArg)) : List String :=
  body.map Prod.fst

/-- From part_003 lines 55-60: the data object handed to the mutation is
`{ message, session_id, course_id: parseInt(courseId), current_unit_id }`. -/
def part003MutationData (messageToSend : String) (sessionId : Option String)
    (courseId : Int) (currentUnitId : Option Int) : List (String × JsValue) :=
  [("message", JsValue.str messageToSend),
   ("session_id", match sessionId with | some s => JsValue.str s | none => JsValue.null),
   ("course_id", JsValue.num courseId),
   ("current_unit_id", match currentUnitId with | some u => JsValue.num u | none => JsValue.null)]

/-- From part_003 line 26: `mutationFn: (data) => chatAPI.sendMessage(data)`.
The single object argument lands in the positional `courseId` parameter of
`sendMessage`; `message` stays `undefined` and `sessionId` falls back to its
default `null`. -/
def part003SendRequest (data : List (String × JsValue)) : List (String × JsArg) :=
  chatSendMessage (JsArg.obj data) (JsArg.prim JsValue.undef) (JsArg.prim JsValue.undef)

/-- From the spec (§6): the request side of the query entrypoint contract
`answer(course_id, session_id?, current_unit_id?, question)`. -/
def contractRequestFields : List String :=
  ["course_id", "session_id", "current_unit_id", "question"]

/-- From the spec (§6): the response side of the query entrypoint contract
`{answer_text, citations, session_id, grounded}`. -/
def contractResponseFields : List String :=
  ["answer_text", "citations", "session_id", "grounded"]

/-- From part_003 lines 27-33: `onSuccess` reads `response.data.response` and
`response.data.session_id` and nothing else of the response. -/
def part003ConsumedResponseFields : List String :=
  ["response", "session_id"]

/-- Formalisation of claim C1 as stated: a send-message request body together
with the consumed response fields matches the §6 contract, i.e. the body
carries every contract request field and every contract response field is
consumed. -/
def matchesAnswerContract (body : List (String × JsArg)) (consumed : List String) : Prop :=
  (∀ f ∈ contractRequestFields, f ∈ requestFieldNames body)
    ∧ (∀ f ∈ contractResponseFields, f ∈ consumed)

/-! ## App routing and the auth interceptor -/

/-- From part_001 (App) lines 13-16: `isAuthenticated` is `!!token` for the
token read from localStorage (`none` models a missing key). -/
def isAuthenticated (token : Option String) : Bool :=
  jsTruthyOptStr token

/-- The routes declared in part_001 (App) lines 21-32. -/
inductive Route where
  | login
  | dashboard
  | chat (courseId : Nat)
  | root
deriving DecidableEq, Repr

/-- What a route renders: a page or a `Navigate` redirect. -/
inductive Rendered where
  | loginPage
  | dashboardPage
  | chatPage (courseId : Nat)
  | redirectTo (path : String)
deriving DecidableEq, Repr

/-- From part_001 (App) lines 21-32: dashboard and chat render their page only
when authenticated, otherwise `Navigate to=/login`; the root redirects to
the dashboard. -/
def renderRoute (isAuth : Bool) : Route → Rendered
  | Route.login => Rendered.loginPage
  | Route.dashboard => if isAuth then Rendered.dashboardPage else Rendered.redirectTo "/login"
  | Route.chat c => if isAuth then Rendered.chatPage c else Rendered.redirectTo "/login"
  | Route.root => Rendered.redirectTo "/dashboard"

/-- From api.js lines 14-21: the request interceptor sets
`Authorization: Bearer <token>` exactly when the stored token is truthy. -/
def authHeader (token : Option String) : Option String :=
  match token with
  | none => none
  | some t => if jsTruthyStr t then some ("Bearer " ++ t) else none

/-- A token is present in localStorage when `getItem` does not return null. -/
def tokenPresent (token : Option String) : Prop := token ≠ none

/-- A non-empty token string is stored (the reading of present under
JavaScript truthiness). -/
def nonEmptyTokenStored (token : Option String) : Bool :=
  match token with
  | none => false
  | some t => t ≠ ""

/-! ## api.js: getChatHistory -/

/-- A chat message as returned by the messages endpoint. -/
structure ChatMsg where
  role : String
  content : String
deriving DecidableEq, Repr

/-- A session record as returned by the sessions endpoint; the code only
reads its `id`. -/
structure SessionRec where
  id : Nat
deriving DecidableEq, Repr

/-- From api.js lines 71-81: `getChatHistory` fetches the sessions list for a
course; with zero sessions it returns `{ messages: [], session_id: null }`,
otherwise it fetches the messages of `sessions[sessions.length - 1]`.  The
result pairs the returned data with the list of session ids whose messages
were fetched.  `sessionsData` and the fetch results may be null (`|| []`). -/
def getChatHistory (sessionsData : Option (List SessionRec))
    (fetchMessages : Nat → Option (List ChatMsg)) :
    (List ChatMsg × Option Nat) × List Nat :=
  let sessions := sessionsData.getD []
  match sessions.getLast? with
  | none => (([], none), [])
  | some latest => (((fetchMessages latest.id).getD [], some latest.id), [latest.id])

/-! ## api.js: uploadDocuments -/

/-- The `files` argument of `uploadDocuments`: a single File object or an
array of File objects (files are modelled by their names). -/
inductive FilesArg where
  | single (f : String)
  | array (fs : List String)
deriving DecidableEq, Repr

/-- From api.js line 52: `Array.isArray(files) ? files : [files]`. -/
def fileListOf : FilesArg → List String
  | FilesArg.single f => [f]
  | FilesArg.array fs => fs

/-- One entry appended to the FormData. -/
inductive FormEntry where
  | file (field : String) (f : String)
  | text (field : String) (v : String)
deriving DecidableEq, Repr

/-- Models `if (x) formData.append(field, x)` for a nullable string. -/
def optTextEntry (field : String) (v : Option String) : List FormEntry :=
  match v with
  | none => []
  | some s => if s = "" then [] else [FormEntry.text field s]

/-- From api.js lines 49-57: every file of the (normalised) list is appended
under the field name `files`, then `unit_id` and `topic_name` when truthy;
the request targets the course upload URL. -/
def uploadDocuments (courseId : Nat) (files : FilesArg)
    (unitId topicName : Option String) : String × List FormEntry :=
  let fileList := fileListOf files
  ("/api/courses/" ++ toString courseId ++ "/upload",
    fileList.map (fun f => FormEntry.file "files" f)
      ++ optTextEntry "unit_id" unitId
      ++ optTextEntry "topic_name" topicName)

/-- Recognises the FormData entries appended under the field name `files`. -/
def isFilesEntry : FormEntry → Bool
  | FormEntry.file "files" _ => true
  | _ => false

/-! ## The part_003 ChatInterface as a state machine

The component keeps `messages`, `sessionId` and `isLoading` in local state.
`inFlight` instruments the number of send-message requests issued but not yet
completed: `mutate` increments it, `onSuccess`/`onError` fire once per issued
request and decrement it.
-/

/-- A message of the local `messages` state of part_003. -/
structure Msg where
  role : String
  content : String
deriving DecidableEq, Repr

def userMsg (c : String) : Msg := { role := "user", content := c }

def assistantMsg (c : String) : Msg := { role := "assistant", content := c }

/-- From part_003 line 39: the single user-visible failure message. -/
def errorText : String := "Sorry, an error occurred. Please try again."

structure ChatState where
  messages : List Msg
  sessionId : Option String
  isLoading : Bool
  inFlight : Nat
deriving DecidableEq, Repr

/-- The initial state of part_003 (lines 11-14). -/
def initialState : ChatState :=
  { messages := [], sessionId := none, isLoading := false, inFlight := 0 }

/-- From part_003 lines 45-61: `handleSend` returns early when the trimmed
input is empty or a request is loading; otherwise it appends the user
message, sets the loading flag and issues one send-message request. -/
def handleSend (input : String) (s : ChatState) : ChatState :=
  if jsTrim input = "" ∨ s.isLoading = true then s
  else
    { s with
      messages := s.messages ++ [userMsg input],
      isLoading := true,
      inFlight := s.inFlight + 1 }

/-- From part_003 lines 27-35: `onSuccess` appends the assistant answer,
stores the returned session id when none is held (JavaScript truthiness:
`null` and `""` count as none held), and clears the loading flag. -/
def onSuccess (respText respSession : String) (s : ChatState) : ChatState :=
  { s with
    messages := s.messages ++ [assistantMsg respText],
    sessionId := if jsTruthyOptStr s.sessionId then s.sessionId else some respSession,
    isLoading := false,
    inFlight := s.inFlight - 1 }

/-- From part_003 lines 36-43: `onError` appends the fixed failure message
and clears the loading flag. -/
def onError (s : ChatState) : ChatState :=
  { s with
    messages := s.messages ++ [assistantMsg errorText],
    isLoading := false,
    inFlight := s.inFlight - 1 }

/-- One event of the part_003 component: a send attempt, or the completion
callback of an issued request (success or error). -/
inductive Step : ChatState → ChatState → Prop where
  | send (input : String) (s : ChatState) : Step s (handleSend input s)
  | success (respText respSession : String) (s : ChatState) (h : 0 < s.inFlight) :
      Step s (onSuccess respText respSession s)
  | failure (s : ChatState) (h : 0 < s.inFlight) : Step s (onError s)

/-- States reachable from the initial state of the component. -/
inductive Reachable : ChatState → Prop where
  | init : Reachable initialState
  | step {s t : ChatState} : Reachable s → Step s t → Reachable t

/-- The role opposite to `r` in a user/assistant conversation. -/
def otherRole (r : String) : String := if r = "user" then "assistant" else "user"

/-- The message roles alternate, starting with `r`. -/
def rolesFrom : String → List Msg → Bool
  | _, [] => true
  | r, m :: rest => (m.role == r) && rolesFrom (otherRole r) rest

/-- The invariant of the part_003 component: the loading flag counts the
requests in flight, the history alternates user/assistant starting with a
user message, and it ends on a user message exactly while loading. -/
def Inv (s : ChatState) : Prop :=
  s.inFlight = (if s.isLoading then 1 else 0)
    ∧ rolesFrom "user" s.messages = true
    ∧ s.messages.length % 2 = (if s.isLoading then 1 else 0)

/-! ## part_002 ChatInterface: input gating -/

/-- From part_002 line 417: the chat textarea is disabled when the course has
no documents or a request is pending. -/
def chatTextareaDisabled (docCount : Nat) (isPending : Bool) : Bool :=
  decide (docCount = 0) || isPending

/-- From part_002 line 425: the send button is disabled when the trimmed
message is empty, the course has no documents, or a request is pending. -/
def chatSendButtonDisabled (messageText : String) (docCount : Nat) (isPending : Bool) : Bool :=
  decide (jsTrim messageText = "") || decide (docCount = 0) || isPending

/-- From part_002 lines 136-140: the `handleSend` guard returns early when the
trimmed message is empty or the mutation is pending. -/
def part002HandleSendBlocked (messageText : String) (isPending : Bool) : Bool :=
  decide (jsTrim messageText = "") || isPending

/-! ## Spec-modelled retrieval pipeline

The backend implementing §4.3 (Vector Index), §4.6 (Context Assembler) and
the §6 `answer` entrypoint is not among the provided sources; the following
definitions are modelled from the specification.
-/

/-- A retrieved chunk with its citation metadata and similarity score. -/
structure ScoredChunk where
  document_id : Nat
  chunk_id : Nat
  offsetStart : Nat
  offsetEnd : Nat
  text : String
  score : Rat
deriving DecidableEq, Repr

/-- A citation referencing a chunk by document / chunk / offset range. -/
structure Citation where
  document_id : Nat
  chunk_id : Nat
  offsetStart : Nat
  offsetEnd : Nat
deriving DecidableEq, Repr

/-- The citation built from the document/offset metadata of a chunk. -/
def citationOf (c : ScoredChunk) : Citation :=
  { document_id := c.document_id, chunk_id := c.chunk_id,
    offsetStart := c.offsetStart, offsetEnd := c.offsetEnd }

/-- Modelled from the spec (§4.6): the retrieved entries whose similarity is
above the floor; the ones below are discarded. -/
def surviving (rs : List ScoredChunk) (floor : Rat) : List ScoredChunk :=
  rs.filter (fun r => floor < r.score)

/-- Modelled from the spec (§4.6): greedy accumulation of chunk text, in
order, until the character budget is exhausted. -/
def takeWithinBudget (budget : Nat) : List ScoredChunk → List ScoredChunk
  | [] => []
  | c :: rest =>
      if c.text.length ≤ budget then c :: takeWithinBudget (budget - c.text.length) rest
      else []

structure AssembledContext where
  contextChunks : List ScoredChunk
  fallback : Bool
  citations : List Citation
deriving DecidableEq, Repr

/-- Modelled from the spec (§4.6, Context Assembler): entries above the floor
are accumulated into the context under the budget; the query falls back
exactly when no entry survives the floor, and the citations are built from
the surviving entries. -/
def assembleContext (rs : List ScoredChunk) (floor : Rat) (budget : Nat) : AssembledContext :=
  let surv := surviving rs floor
  { contextChunks := takeWithinBudget budget surv,
    fallback := surv.isEmpty,
    citations := surv.map citationOf }

/-- Modelled from the spec (§4.3): the logical per-course partition of the
vector index, one entry per chunk keyed by owning course. -/
def courseChunks (index : List (Nat × ScoredChunk)) (courseId : Nat) : List ScoredChunk :=
  (index.filter (fun e => e.1 = courseId)).map Prod.snd

/-- Modelled from the spec (§4.3): `search` returns at most `k` chunks of the
course partition, ordered by descending similarity. -/
def searchCourse (index : List (Nat × ScoredChunk)) (courseId k : Nat) : List ScoredChunk :=
  ((courseChunks index courseId).mergeSort (fun a b => decide (b.score ≤ a.score))).take k

/-- The visible outcome of the §6 `answer` entrypoint, as far as the claims
need it. -/
structure AnswerOutcome where
  retrieved : List ScoredChunk
  grounded : Bool
  citations : List Citation
deriving DecidableEq, Repr

/-- Modelled from the spec (§2, §4.6, §6): the query flow searches the course
partition, assembles the context, and the answer is grounded exactly when the
query did not fall back. -/
def answerQuery (index : List (Nat × ScoredChunk)) (courseId k : Nat)
    (floor : Rat) (budget : Nat) : AnswerOutcome :=
  let rs := searchCourse index courseId k
  let a := assembleContext rs floor budget
  { retrieved := rs, grounded := !a.fallback, citations := a.citations }

/-- A concrete indexed chunk used to instantiate universally quantified
statements. -/
def sampleChunk : ScoredChunk :=
  { document_id := 1, chunk_id := 1, offsetStart := 0, offsetEnd := 4,
    text := "text", score := 1 }

/-! ## Theorems -/

/-- Claim C1, counterexample: at the concrete send-message call posting
course 7 with question `hello` and no session, the request body does not
carry the contract fields `current_unit_id` and `question`, and the consumed
response fields are not those of the §6 contract. -/
theorem c1_counterexample :
    ¬ matchesAnswerContract
        (chatSendMessage (JsArg.prim (JsValue.num 7)) (JsArg.prim (JsValue.str "hello"))
          (JsArg.prim JsValue.null))
        part003ConsumedResponseFields := by
  intro h
  have := h.1 "current_unit_id" (by simp [contractRequestFields])
  simp [chatSendMessage, requestFieldNames] at this

/-- Claim C1 (amended): every send-message request body carries exactly the
fields `course_id`, `message`, `session_id` — the question travels in the
field `message` and no `current_unit_id` field is sent — and the consumed
response fields of part_003 are `response` and `session_id` only. -/
theorem c1_request_and_response_fields (c m s : JsArg) :
    requestFieldNames (chatSendMessage c m s) = ["course_id", "message", "session_id"]
      ∧ part003ConsumedResponseFields = ["response", "session_id"]
      ∧ "current_unit_id" ∉ requestFieldNames (chatSendMessage c m s)
      ∧ "question" ∉ requestFieldNames (chatSendMessage c m s) := by
  refine ⟨rfl, rfl, ?_, ?_⟩ <;> simp [chatSendMessage, requestFieldNames]

/-- Claim C4, evaluation at the failing input: part_003 hands its data object
to `chatAPI.sendMessage` as the single positional argument, so whatever
session id the component stores, the posted `session_id` field is null (the
default of the third parameter) and the `message` field is undefined; in
particular this happens for the second message of a conversation whose first
response returned session `sess-1`. -/
theorem c4_session_id_dropped :
    (∀ data : List (String × JsValue),
        lookupField "session_id" (part003SendRequest data) = some (JsArg.prim JsValue.null))
      ∧ lookupField "session_id"
          (part003SendRequest (part003MutationData "second question" (some "sess-1") 7 none))
          = some (JsArg.prim JsValue.null)
      ∧ lookupField "message"
          (part003SendRequest (part003MutationData "second question" (some "sess-1") 7 none))
          = some (JsArg.prim JsValue.undef) := by
  refine ⟨fun data => ?_, by decide, by decide⟩
  simp [part003SendRequest, chatSendMessage, lookupField, List.find?]

/-- Claim C8, counterexample: with the empty string stored as token, a token
is present in localStorage yet the client is not authenticated and no
Authorization header is attached (JavaScript truthiness). -/
theorem c8_counterexample :
    ¬ ((isAuthenticated (some "") = true ↔ tokenPresent (some ""))
        ∧ ((authHeader (some "")).isSome = true ↔ tokenPresent (some ""))) := by
  intro h
  have hp : tokenPresent (some "") := by simp [tokenPresent]
  have := h.1.mpr hp
  simp [isAuthenticated, jsTruthyOptStr, jsTruthyStr] at this

/-- Claim C8 (amended): the client is authenticated exactly when a non-empty
token string is stored, the Authorization header is attached exactly when the
client is authenticated, and the dashboard and chat routes render their page
when authenticated and redirect to /login otherwise. -/
theorem c8_auth_routing (token : Option String) (c : Nat) :
    isAuthenticated token = nonEmptyTokenStored token
      ∧ (authHeader token).isSome = isAuthenticated token
      ∧ renderRoute false Route.dashboard = Rendered.redirectTo "/login"
      ∧ renderRoute false (Route.chat c) = Rendered.redirectTo "/login"
      ∧ renderRoute true Route.dashboard = Rendered.dashboardPage
      ∧ renderRoute true (Route.chat c) = Rendered.chatPage c := by
  refine ⟨?_, ?_, rfl, rfl, rfl, rfl⟩
  · cases token with
    | none => rfl
    | some t => simp [isAuthenticated, jsTruthyOptStr, jsTruthyStr, nonEmptyTokenStored]
  · cases token with
    | none => rfl
    | some t =>
        by_cases ht : t = "" <;>
          simp [authHeader, isAuthenticated, jsTruthyOptStr, jsTruthyStr, ht]

/-- Claim C9: with null session data or zero sessions, `getChatHistory`
returns empty messages and a null session id and fetches no messages; with at
least one session it returns the messages and id of the last session of the
list, fetching exactly that session. -/
theorem c9_get_chat_history (fetchMessages : Nat → Option (List ChatMsg))
    (pre : List SessionRec) (lastSession : SessionRec) :
    getChatHistory none fetchMessages = (([], none), [])
      ∧ getChatHistory (some []) fetchMessages = (([], none), [])
      ∧ getChatHistory (some (pre ++ [lastSession])) fetchMessages
          = (((fetchMessages lastSession.id).getD [], some lastSession.id), [lastSession.id]) := by
  refine ⟨rfl, rfl, ?_⟩
  simp [getChatHistory]

/-- Claim C10: uploading a single file and uploading the one-element list
containing it build identical requests — a non-array argument is wrapped into
a singleton list — and the file entries of the form data are exactly the
files of the list, each under the field name `files`. -/
theorem c10_upload_normalisation (cid : Nat) (f : String) (u t : Option String)
    (fs : List String) :
    uploadDocuments cid (FilesArg.single f) u t = uploadDocuments cid (FilesArg.array [f]) u t
      ∧ fileListOf (FilesArg.single f) = [f]
      ∧ (uploadDocuments cid (FilesArg.array fs) u t).2.filter isFilesEntry
          = fs.map (fun x => FormEntry.file "files" x) := by
  refine ⟨rfl, rfl, ?_⟩
  have hunit : (optTextEntry "unit_id" u).filter isFilesEntry = [] := by
    cases u with
    | none => rfl
    | some sv => by_cases hv : sv = "" <;> simp [optTextEntry, hv, isFilesEntry]
  have htopic : (optTextEntry "topic_name" t).filter isFilesEntry = [] := by
    cases t with
    | none => rfl
    | some sv => by_cases hv : sv = "" <;> simp [optTextEntry, hv, isFilesEntry]
  have hfiles : (fs.map (fun x => FormEntry.file "files" x)).filter isFilesEntry
      = fs.map (fun x => FormEntry.file "files" x) := by
    induction fs with
    | nil => rfl
    | cons x xs ih => simp [List.filter, isFilesEntry, ih]
  simp [uploadDocuments, fileListOf, List.filter_append, hunit, htopic, hfiles]

/-- Claim C2: the assembled context falls back exactly when no retrieved
chunk scores above the floor; on fallback the citations list is empty, and
otherwise the citations are exactly the surviving chunks' document/offset
metadata (and in particular non-empty). -/
theorem c2_fallback_rule (rs : List ScoredChunk) (floor : Rat) (budget : Nat) :
    ((assembleContext rs floor budget).fallback = true ↔ ∀ r ∈ rs, r.score ≤ floor)
      ∧ ((assembleContext rs floor budget).fallback = true →
          (assembleContext rs floor budget).citations = [])
      ∧ ((assembleContext rs floor budget).fallback = false →
          (assembleContext rs floor budget).citations = (surviving rs floor).map citationOf
            ∧ (assembleContext rs floor budget).citations ≠ []) := by
  have hsurv : (assembleContext rs floor budget).fallback = true ↔ surviving rs floor = [] := by
    simp [assembleContext, List.isEmpty_iff]
  constructor
  · rw [hsurv]
    simp only [surviving, List.filter_eq_nil_iff]
    constructor
    · intro h r hr
      have := h r hr
      simpa [not_lt] using this
    · intro h r hr
      simpa [not_lt] using h r hr
  constructor
  · intro hfb
    have h0 : surviving rs floor = [] := hsurv.mp hfb
    simp [assembleContext, h0]
  · intro hfb
    have h0 : ¬ surviving rs floor = [] := by
      intro h
      rw [hsurv.mpr h] at hfb
      exact absurd hfb (by simp)
    refine ⟨rfl, ?_⟩
    simpa [assembleContext, List.map_eq_nil_iff] using h0

/-- Claim C2, witness: a single retrieved chunk scoring 1 against floor 2
yields a fallback with an empty citations list. -/
theorem c2_witness :
    (assembleContext [sampleChunk] 2 100).fallback = true
      ∧ (assembleContext [sampleChunk] 2 100).citations = [] :=
  ⟨(c2_fallback_rule [sampleChunk] 2 100).1.mpr (by decide),
   (c2_fallback_rule [sampleChunk] 2 100).2.1
     ((c2_fallback_rule [sampleChunk] 2 100).1.mpr (by decide))⟩

/-- Claim C3, counterexample: with zero documents in the course the part_002
chat input and send button are disabled, so a query against an empty course
is prevented by the UI rather than sent and answered. -/
theorem c3_counterexample :
    chatTextareaDisabled 0 false = true
      ∧ chatSendButtonDisabled "What is X?" 0 false = true := by
  constructor
  · rfl
  · simp [chatSendButtonDisabled]

/-- Claim C3 (amended): a query against a course with no indexed chunks
retrieves nothing and yields a non-grounded answer with no citations (the
spec-modelled pipeline answers it from general knowledge); the part_002 chat
UI however disables its input for a course with no documents. -/
theorem c3_empty_course (index : List (Nat × ScoredChunk)) (courseId k : Nat)
    (floor : Rat) (budget : Nat) (h : ∀ e ∈ index, e.1 ≠ courseId) :
    (answerQuery index courseId k floor budget).retrieved = []
      ∧ (answerQuery index courseId k floor budget).grounded = false
      ∧ (answerQuery index courseId k floor budget).citations = []
      ∧ chatTextareaDisabled 0 false = true := by
  have hc : courseChunks index courseId = [] := by
    simp only [courseChunks, List.map_eq_nil_iff, List.filter_eq_nil_iff]
    intro e he
    simpa using h e he
  have hs : searchCourse index courseId k = [] := by
    simp [searchCourse, hc]
  refine ⟨?_, ?_, ?_, rfl⟩ <;>
    simp [answerQuery, hs, assembleContext, surviving, takeWithinBudget]

/-- Claim C3, witness: an index holding one chunk for course 2 has no chunks
for course 1, and a query for course 1 retrieves nothing, is not grounded and
cites nothing. -/
theorem c3_witness :
    (answerQuery [(2, sampleChunk)] 1 5 0 100).retrieved = []
      ∧ (answerQuery [(2, sampleChunk)] 1 5 0 100).grounded = false
      ∧ (answerQuery [(2, sampleChunk)] 1 5 0 100).citations = []
      ∧ chatTextareaDisabled 0 false = true :=
  c3_empty_course [(2, sampleChunk)] 1 5 0 100 (by decide)

/-- Appending a message to an alternating history: the result alternates from
`r` exactly when the history does and the new message carries the role
expected at the current parity.  Requires `otherRole` to be involutive at
`r`, which holds for the two conversation roles. -/
theorem rolesFrom_append (r : String) (hr : otherRole (otherRole r) = r)
    (l : List Msg) (m : Msg) :
    rolesFrom r (l ++ [m])
      = (rolesFrom r l && (m.role == (if l.length % 2 = 0 then r else otherRole r))) := by
  induction l generalizing r with
  | nil => simp [rolesFrom]
  | cons x xs ih =>
      have hr2 : otherRole (otherRole (otherRole r)) = otherRole r := congrArg otherRole hr
      simp only [List.cons_append, rolesFrom, List.length_cons, List.append_eq]
      rw [ih (otherRole r) hr2]
      by_cases hpar : xs.length % 2 = 0
      · have hlen : ¬ (xs.length + 1) % 2 = 0 := by omega
        simp [hpar, hlen, Bool.and_assoc]
      · have hlen : (xs.length + 1) % 2 = 0 := by omega
        simp [hpar, hlen, hr, Bool.and_assoc]

/-- One step of the part_003 component preserves its invariant. -/
theorem step_inv {s t : ChatState} (hs : Inv s) (h : Step s t) : Inv t := by
  obtain ⟨hflight, hroles, hlen⟩ := hs
  have hinv : otherRole (otherRole "user") = "user" := rfl
  cases h with
  | send input =>
      by_cases hguard : jsTrim input = "" ∨ s.isLoading = true
      · have hstep : handleSend input s = s := by
          rw [handleSend, if_pos hguard]
        rw [hstep]
        exact ⟨hflight, hroles, hlen⟩
      · push_neg at hguard
        have hload : s.isLoading = false := by simpa using hguard.2
        have hcond : ¬ (jsTrim input = "" ∨ s.isLoading = true) := by
          simp [hguard.1, hload]
        have hstep : handleSend input s =
            { s with messages := s.messages ++ [userMsg input],
                     isLoading := true, inFlight := s.inFlight + 1 } := by
          rw [handleSend, if_neg hcond]
        rw [hload] at hflight hlen
        simp only [Bool.false_eq_true, if_false] at hflight hlen
        rw [hstep]
        refine ⟨?_, ?_, ?_⟩
        · show s.inFlight + 1 = if true = true then 1 else 0
          simp [hflight]
        · show rolesFrom "user" (s.messages ++ [userMsg input]) = true
          rw [rolesFrom_append "user" hinv]
          simp [hroles, hlen, userMsg]
        · show (s.messages ++ [userMsg input]).length % 2 = if true = true then 1 else 0
          simp only [List.length_append, List.length_cons, List.length_nil, if_pos]
          omega
  | success respText respSession hpos =>
      have hload : s.isLoading = true := by
        by_contra h0
        have h0f : s.isLoading = false := by simpa using h0
        rw [h0f] at hflight
        simp only [Bool.false_eq_true, if_false] at hflight
        omega
      rw [hload] at hflight hlen
      simp only [if_true] at hflight hlen
      refine ⟨?_, ?_, ?_⟩
      · show s.inFlight - 1 = if false = true then 1 else 0
        simp [hflight]
      · show rolesFrom "user" (s.messages ++ [assistantMsg respText]) = true
        rw [rolesFrom_append "user" hinv]
        have hodd : ¬ s.messages.length % 2 = 0 := by omega
        simp [hroles, hodd, assistantMsg, otherRole]
      · show (s.messages ++ [assistantMsg respText]).length % 2 = if false = true then 1 else 0
        simp only [List.length_append, List.length_cons, List.length_nil,
          Bool.false_eq_true, if_false]
        omega
  | failure hpos =>
      have hload : s.isLoading = true := by
        by_contra h0
        have h0f : s.isLoading = false := by simpa using h0
        rw [h0f] at hflight
        simp only [Bool.false_eq_true, if_false] at hflight
        omega
      rw [hload] at hflight hlen
      simp only [if_true] at hflight hlen
      refine ⟨?_, ?_, ?_⟩
      · show s.inFlight - 1 = if false = true then 1 else 0
        simp [hflight]
      · show rolesFrom "user" (s.messages ++ [assistantMsg errorText]) = true
        rw [rolesFrom_append "user" hinv]
        have hodd : ¬ s.messages.length % 2 = 0 := by omega
        simp [hroles, hodd, assistantMsg, otherRole]
      · show (s.messages ++ [assistantMsg errorText]).length % 2 = if false = true then 1 else 0
        simp only [List.length_append, List.length_cons, List.length_nil,
          Bool.false_eq_true, if_false]
        omega

/-- Every state the part_003 component can reach satisfies the invariant. -/
theorem reachable_inv {s : ChatState} (h : Reachable s) : Inv s := by
  induction h with
  | init => exact ⟨rfl, rfl, rfl⟩
  | step _ hstep ih => exact step_inv ih hstep

/-- Claim C5: every event of the part_003 component either leaves the message
list unchanged or appends exactly one message at its end; in particular the
previously appended messages survive unchanged, in order, as the front of the
new list. -/
theorem c5_append_only (s t : ChatState) (h : Step s t) :
    t.messages.take s.messages.length = s.messages
      ∧ (t.messages = s.messages ∨ ∃ m, t.messages = s.messages ++ [m]) := by
  have key : t.messages = s.messages ∨ ∃ m, t.messages = s.messages ++ [m] := by
    cases h with
    | send input =>
        by_cases hguard : jsTrim input = "" ∨ s.isLoading = true
        · left
          rw [handleSend, if_pos hguard]
        · right
          exact ⟨userMsg input, by rw [handleSend, if_neg hguard]⟩
    | success respText respSession hpos => exact Or.inr ⟨assistantMsg respText, rfl⟩
    | failure hpos => exact Or.inr ⟨assistantMsg errorText, rfl⟩
  refine ⟨?_, key⟩
  rcases key with h1 | ⟨m, h1⟩
  · rw [h1, List.take_length]
  · rw [h1, List.take_left]

/-- Claim C5, witness: the send event on the initial state preserves the
(empty) prior history as a prefix and appends a single message. -/
theorem c5_witness :
    (handleSend "hi" initialState).messages.take initialState.messages.length
        = initialState.messages
      ∧ ((handleSend "hi" initialState).messages = initialState.messages
          ∨ ∃ m, (handleSend "hi" initialState).messages = initialState.messages ++ [m]) :=
  c5_append_only initialState (handleSend "hi" initialState) (Step.send "hi" initialState)

/-- Claim C6: when a send-message request fails, the part_003 error callback
appends exactly one assistant failure message after the retained user
message, clears the loading flag, and leaves the request count balanced — no
partial answer is added. -/
theorem c6_error_path (s : ChatState) (input : String)
    (hmsg : ¬ jsTrim input = "") (hidle : s.isLoading = false) :
    (onError (handleSend input s)).messages
        = s.messages ++ [userMsg input, assistantMsg errorText]
      ∧ (onError (handleSend input s)).isLoading = false
      ∧ (onError (handleSend input s)).inFlight = s.inFlight := by
  have hguard : ¬ (jsTrim input = "" ∨ s.isLoading = true) := by
    rintro (h0 | h0)
    · exact hmsg h0
    · rw [hidle] at h0
      exact absurd h0 (by simp)
  refine ⟨?_, ?_, ?_⟩
  · rw [onError]
    simp only [handleSend, if_neg hguard]
    rw [List.append_assoc]
    rfl
  · rfl
  · rw [onError]
    simp only [handleSend, if_neg hguard]
    omega

/-- Claim C6, witness: a failing first request leaves exactly the user
message and the single failure message, with the loading flag cleared. -/
theorem c6_witness :
    (onError (handleSend "hi" initialState)).messages
        = initialState.messages ++ [userMsg "hi", assistantMsg errorText]
      ∧ (onError (handleSend "hi" initialState)).isLoading = false
      ∧ (onError (handleSend "hi" initialState)).inFlight = initialState.inFlight :=
  c6_error_path initialState "hi" (by decide) rfl

/-- Claim C7: in every reachable state of the part_003 component at most one
send-message request is in flight, `handleSend` is a no-op while a request is
loading (so requests are serialised per session), and the history alternates
user and assistant messages starting with a user message. -/
theorem c7_serialised (s : ChatState) (h : Reachable s) :
    s.inFlight ≤ 1
      ∧ (s.isLoading = true → ∀ input, handleSend input s = s)
      ∧ rolesFrom "user" s.messages = true := by
  obtain ⟨hflight, hroles, _⟩ := reachable_inv h
  refine ⟨?_, ?_, hroles⟩
  · rw [hflight]
    rcases Bool.eq_false_or_eq_true s.isLoading with h0 | h0 <;> simp [h0]
  · intro hload input
    rw [handleSend, if_pos (Or.inr hload)]

/-- Claim C7, witness: in the reachable state after one send, the request
count is at most one, further sends are no-ops while loading, and the history
alternates from a user message. -/
theorem c7_witness :
    (handleSend "hi" initialState).inFlight ≤ 1
      ∧ ((handleSend "hi" initialState).isLoading = true
          → ∀ input, handleSend input (handleSend "hi" initialState)
              = handleSend "hi" initialState)
      ∧ rolesFrom "user" (handleSend "hi" initialState).messages = true :=
  c7_serialised (handleSend "hi" initialState)
    (Reachable.step Reachable.init (Step.send "hi" initialState))

end RagEdu
